import Mathlib

/-!
Shallow embedding of the archivebot orchestration core (src/archiver.rs,
src/util/mod.rs, src/util/ytdl.rs, src/util/rclone.rs, src/util/metadata.rs).

External collaborators (task queue, archive site, downloader, extractor,
uploader) are dynamic trait objects in the source; here their responses are
an oracle record `Behavior`.  Each pipeline function is translated to a pure
function that returns its `Result` together with the list of state events it
published (`emitted`), the events actually delivered into the optional mpsc
channel (`delivered`), and the trace of collaborator calls (`calls`).
anyhow's `.context(msg)` wrapping is modelled as `msg ++ ": " ++ cause`,
matching the alternate `{:#}` rendering used by the logs.  Rust `u64` fields
become `Nat`, `i32`/`i64` become `Int`, and the lossy-decoded
stdout/stderr byte buffers become `String`.
-/

namespace ArchiveBot

/-- The `ArchiverState` enum of src/archiver.rs lines 5-12. -/
inductive ArchiverState
  | Idle
  | Starting
  | FailureBackoff
  | Downloading
  | Uploading
deriving DecidableEq, Repr

/-- Model of Rust `std::process::ExitStatus`: whether the process exited
successfully, and its exit code when it exited normally (`None` models a
signal-terminated process, where `status.code()` is `None`). -/
structure ExitStatus where
  success : Bool
  code : Option Int
deriving DecidableEq, Repr

/-- The `Display` rendering of an `ExitStatus` (used in error messages). -/
def ExitStatus.display (st : ExitStatus) : String :=
  match st.code with
  | some c => "exit status: " ++ toString c
  | none => "signal"

/-- Model of Rust `std::process::Output` with lossily-decoded streams. -/
structure ProcessOutput where
  status : ExitStatus
  stdout : String
  stderr : String
deriving DecidableEq, Repr

/-- `VideoDownloadResult` of src/util/mod.rs lines 82-84. -/
structure VideoDownloadResult where
  output : ProcessOutput
deriving DecidableEq, Repr

/-- `TaskConsumeResponse` of src/util/mod.rs lines 69-73. -/
structure TaskConsumeResponse where
  key : String
  data : String
deriving DecidableEq, Repr

/-- `MetadataFileEntry` of src/util/mod.rs lines 124-128. -/
structure MetadataFileEntry where
  name : String
  size : Nat
deriving DecidableEq, Repr

/-- `MetadataTimestamps` of src/util/mod.rs lines 130-140. -/
structure MetadataTimestamps where
  actual_start_time : Option String
  published_at : Option String
  scheduled_start_time : Option String
  actual_end_time : Option String
deriving DecidableEq, Repr

/-- The `Metadata` record of src/util/mod.rs lines 102-122. -/
structure Metadata where
  video_id : String
  channel_name : String
  channel_id : String
  upload_date : String
  title : String
  description : String
  duration : Nat
  width : Int
  height : Int
  fps : Int
  format_id : String
  view_count : Nat
  like_count : Nat
  dislike_count : Int
  files : List MetadataFileEntry
  drive_base : String
  archived_timestamp : String
  timestamps : Option MetadataTimestamps
deriving DecidableEq, Repr

/-- One collaborator call made by the pipeline, in program order. -/
inductive Call
  | consume
  | insert (data : String)
  | is_archived (id : String)
  | tempdirCreate
  | tempdirRemove
  | download (url : String)
  | extract
  | upload (id : String)
  | archive (id : String)
deriving DecidableEq, Repr

/-- `true` exactly on queue-insert calls. -/
def Call.isInsert : Call → Bool
  | .insert _ => true
  | _ => false

/-- `true` exactly on downloader calls. -/
def Call.isDownload : Call → Bool
  | .download _ => true
  | _ => false

/-- Oracle for the collaborator trait objects held by `ArchiveBot`
(src/archiver.rs lines 28-36).  `insert` is recorded although `run_one`
discards its value, mirroring `let _ = self.task_queue.insert(..)`.
`tempdir` models `util::tempdir()` (src/util/mod.rs lines 49-56): `.ok`
means the scratch directory was created. -/
structure Behavior where
  consume : Except String TaskConsumeResponse
  insert : String → Except String String
  is_archived : String → Except String Bool
  tempdir : Except String Unit
  download : String → Except String VideoDownloadResult
  extract : Except String Metadata
  upload : String → Except String Unit
  archive : String → Except String Unit

/-- The events channel: `none` models `self.events = None`; `some true` an
open unbounded channel (receiver alive); `some false` a closed channel
(every `send` returns `Err`, which `send_event` discards). -/
def EventsChannel : Type := Option Bool

/-- `ArchiveBot::send_event` (src/archiver.rs lines 59-63): the value
returned is the list of events actually delivered into the channel; a send
error (closed channel) or an absent channel delivers nothing and is
ignored. -/
def send_event (events : Option Bool) (state : ArchiverState) : List ArchiverState :=
  match events with
  | none => []
  | some receiverAlive => if receiverAlive then [state] else []

/-- The observable outcome of one pipeline function: its `Result`, the state
events passed to `send_event` in order (`emitted`), the events delivered
into the channel (`delivered`), and the collaborator calls in order. -/
structure Outcome where
  result : Except String Unit
  emitted : List ArchiverState
  delivered : List ArchiverState
  calls : List Call
deriving Repr

/-- `ArchiveBot::run_video` (src/archiver.rs lines 124-184).  The temporary
directory is a `tempfile::TempDir`, dropped (removed) on every exit path
after successful creation; that drop is made explicit as a trailing
`Call.tempdirRemove` on each such path. -/
def run_video (b : Behavior) (events : Option Bool) (video_id : String) : Outcome :=
  let video_url := "https://www.youtube.com/watch?v=" ++ video_id
  match b.is_archived video_id with
  | .error e => ⟨.error e, [], [], [.is_archived video_id]⟩
  | .ok true => ⟨.ok (), [], [], [.is_archived video_id]⟩
  | .ok false =>
    match b.tempdir with
    | .error e =>
        ⟨.error ("Could not create temporary directory: " ++ e), [], [],
          [.is_archived video_id]⟩
    | .ok _ =>
      match b.download video_url with
      | .error e =>
          ⟨.error ("Could not download video: " ++ e),
            [.Downloading], send_event events .Downloading,
            [.is_archived video_id, .tempdirCreate, .download video_url,
              .tempdirRemove]⟩
      | .ok dl_res =>
        if dl_res.output.status.success then
          match b.extract with
          | .error e =>
              ⟨.error ("Could not extract metadata: " ++ e),
                [.Downloading], send_event events .Downloading,
                [.is_archived video_id, .tempdirCreate, .download video_url,
                  .extract, .tempdirRemove]⟩
          | .ok _metadata =>
            match b.upload video_id with
            | .error e =>
                ⟨.error ("Could not upload video: " ++ e),
                  [.Downloading, .Uploading],
                  send_event events .Downloading ++ send_event events .Uploading,
                  [.is_archived video_id, .tempdirCreate, .download video_url,
                    .extract, .upload video_id, .tempdirRemove]⟩
            | .ok _ =>
              match b.archive video_id with
              | .error e =>
                  ⟨.error ("Could not add video to archive: " ++ e),
                    [.Downloading, .Uploading],
                    send_event events .Downloading ++ send_event events .Uploading,
                    [.is_archived video_id, .tempdirCreate, .download video_url,
                      .extract, .upload video_id, .archive video_id,
                      .tempdirRemove]⟩
              | .ok _ =>
                  ⟨.ok (),
                    [.Downloading, .Uploading, .Idle],
                    send_event events .Downloading ++ send_event events .Uploading
                      ++ send_event events .Idle,
                    [.is_archived video_id, .tempdirCreate, .download video_url,
                      .extract, .upload video_id, .archive video_id,
                      .tempdirRemove]⟩
        else
          ⟨.error ("Could not download video: downloader exited with code "
              ++ toString (dl_res.output.status.code.getD (-1))
              ++ ", stderr: " ++ dl_res.output.stderr),
            [.Downloading], send_event events .Downloading,
            [.is_archived video_id, .tempdirCreate, .download video_url,
              .tempdirRemove]⟩

/-- `ArchiveBot::run_one` (src/archiver.rs lines 97-122).  The requeue
guard mirrors `!self.skip_requeue.is_empty()`; the value returned by
`task_queue.insert` is discarded (`let _ = ...`). -/
def run_one (b : Behavior) (events : Option Bool) (skip_requeue : String) : Outcome :=
  let startDelivered := send_event events .Starting
  match b.consume with
  | .error e =>
      ⟨.error ("Could not get next task from queue: " ++ e),
        [.Starting], startDelivered, [.consume]⟩
  | .ok task =>
    let video_id := task.data
    let r := run_video b events video_id
    match r.result with
    | .error e =>
        if skip_requeue ≠ "" then
          let _ := b.insert video_id
          ⟨.error e, .Starting :: r.emitted, startDelivered ++ r.delivered,
            .consume :: r.calls ++ [.insert video_id]⟩
        else
          ⟨.error e, .Starting :: r.emitted, startDelivered ++ r.delivered,
            .consume :: r.calls⟩
    | .ok _ =>
        ⟨.ok (), .Starting :: r.emitted, startDelivered ++ r.delivered,
          .consume :: r.calls⟩

/-- The initial backoff delay of `run_forever`, in seconds
(src/archiver.rs line 66, and the reset on line 74). -/
def run_forever_initial_delay : Nat := 30

/-- The backoff ceiling of `run_forever`, in seconds
(src/archiver.rs lines 83-85: `5 * 60`). -/
def backoff_ceiling : Nat := 5 * 60

/-- The delay carried into the next `run_forever` iteration, computed from
the current delay and whether `run_one` succeeded (src/archiver.rs lines
72-86): reset to 30 on success; on failure doubled and then capped. -/
def iter_next_delay (backoff_delay : Nat) (success : Bool) : Nat :=
  if success then run_forever_initial_delay
  else min (backoff_delay * 2) backoff_ceiling

/-- One `run_forever` loop iteration's observables: the `run_one` outcome
(with the `FailureBackoff` event appended on failure), the sleeps performed
(in seconds), and the backoff delay carried to the next iteration. -/
structure IterOutcome where
  run : Outcome
  sleeps : List Nat
  nextDelay : Nat

/-- One iteration of the `run_forever` loop body (src/archiver.rs lines
69-87): on success no sleep and the delay resets; on failure the
`FailureBackoff` event is published, the loop sleeps the current delay and
the delay is doubled, capped at the ceiling. -/
def run_forever_iteration (b : Behavior) (events : Option Bool)
    (skip_requeue : String) (backoff_delay : Nat) : IterOutcome :=
  let o := run_one b events skip_requeue
  match o.result with
  | .ok _ => ⟨o, [], iter_next_delay backoff_delay true⟩
  | .error _ =>
      ⟨{ o with emitted := o.emitted ++ [.FailureBackoff],
                delivered := o.delivered ++ send_event events .FailureBackoff },
        [backoff_delay], iter_next_delay backoff_delay false⟩

/-- The sequence of backoff delays held at the top of each `run_forever`
iteration, starting from `d`, when the successive `run_one` results are
`outs` (`true` = success): the delay before each iteration, plus the delay
that would govern the following one. -/
def backoffDelays : Nat → List Bool → List Nat
  | d, [] => [d]
  | d, s :: rest => d :: backoffDelays (iter_next_delay d s) rest

/-- `YTDL::download` (src/util/ytdl.rs lines 158-190).  The two subprocess
invocations `download_video` and `download_live_chat` are run under
`tokio::try_join!`; their `std::io::Result<Output>` outcomes are the
oracle inputs here (`.error` = the process could not be spawned).
`try_join!` aborts with the first spawn error, which `download` wraps with
the context "Failed to spawn command"; when both spawns succeed, a
non-success primary status is a hard error while a non-success live-chat
status is only warned about.  (When both spawns fail, `try_join!` returns
whichever error completed first; the model picks the primary's, which does
not affect any property below.) -/
def YTDL.download (video : Except String ProcessOutput)
    (live_chat : Except String ProcessOutput) : Except String VideoDownloadResult :=
  match video, live_chat with
  | .error e, _ => .error ("Failed to spawn command: " ++ e)
  | .ok _, .error e => .error ("Failed to spawn command: " ++ e)
  | .ok v, .ok _lc =>
      if v.status.success then .ok ⟨v⟩
      else .error ("yt-dlp exited with non-zero status: " ++ v.status.display)

/-- Installer effects of a tool constructor: the `is_installed` version
probe, and a run of `install()`. -/
inductive ToolEffect
  | probe
  | install
deriving DecidableEq, Repr

/-- `YTDL::new` (src/util/ytdl.rs lines 20-55), after the cache and plugin
directories exist: probes `is_installed()` and invokes `install()` exactly
when the probe fails; an install failure is wrapped with context.
`probe_ok` is the oracle outcome of `is_installed()`, `install_result`
that of `install()`. -/
def YTDL.new (probe_ok : Bool) (install_result : Except String Unit) :
    Except String Unit × List ToolEffect :=
  if probe_ok then (.ok (), [.probe])
  else
    match install_result with
    | .ok _ => (.ok (), [.probe, .install])
    | .error e => (.error ("Could not install yt-dlp and ffmpeg: " ++ e),
        [.probe, .install])

/-- `Rclone::new` (src/util/rclone.rs lines 18-51), after the config file is
written: probes `is_installed()` and invokes `install()` exactly when the
probe fails. -/
def Rclone.new (probe_ok : Bool) (install_result : Except String Unit) :
    Except String Unit × List ToolEffect :=
  if probe_ok then (.ok (), [.probe])
  else
    match install_result with
    | .ok _ => (.ok (), [.probe, .install])
    | .error e => (.error ("Could not install rclone: " ++ e), [.probe, .install])

/-- The parsed `*.info.json` record (src/util/metadata.rs lines 7-23). -/
structure InfoJson where
  id : String
  uploader : String
  channel_id : String
  upload_date : String
  title : String
  description : String
  duration : Nat
  width : Int
  height : Int
  fps : Int
  format_id : String
  view_count : Nat
  like_count : Nat
  dislike_count : Option Int
deriving DecidableEq, Repr

/-- `fix_upload_date` (src/util/metadata.rs lines 180-187): takes the first
four characters as the year, the next two as the month and the next two as
the day off a single consumed character iterator, and joins them with
hyphens. -/
def fix_upload_date (date : String) : String :=
  let chars := date.data
  let year : String := ⟨chars.take 4⟩
  let month : String := ⟨(chars.drop 4).take 2⟩
  let day : String := ⟨((chars.drop 4).drop 2).take 2⟩
  year ++ "-" ++ month ++ "-" ++ day

/-- `YTMetadataExtractor::extract` (src/util/metadata.rs lines 116-177),
with its fallible I/O steps already resolved into inputs: `files` is the
scan of the working directory, `info` the deserialized `*.info.json`,
`timestamps` the YouTube-API response, `now_rfc3339` the formatted current
time, and `drive_base` the extractor's configured locator.  The function
maps them into the `Metadata` record exactly as the source does. -/
def YTMetadataExtractor.extract (drive_base : String)
    (files : List MetadataFileEntry) (info : InfoJson)
    (timestamps : MetadataTimestamps) (now_rfc3339 : String) : Metadata :=
  { video_id := info.id
    channel_name := info.uploader
    channel_id := info.channel_id
    upload_date := fix_upload_date info.upload_date
    title := info.title
    description := info.description
    duration := info.duration
    width := info.width
    height := info.height
    fps := info.fps
    format_id := info.format_id
    view_count := info.view_count
    like_count := info.like_count
    dislike_count := info.dislike_count.getD (-1)
    files := files
    drive_base := drive_base
    archived_timestamp := now_rfc3339
    timestamps := some timestamps }

/-! ### Shared helper lemmas -/

/-- Every trace of `run_video` starts with the catalog idempotency check. -/
theorem run_video_calls_head (b : Behavior) (events : Option Bool) (id : String) :
    (run_video b events id).calls.head? = some (Call.is_archived id) := by
  cases h1 : b.is_archived id with
  | error e => simp [run_video, h1]
  | ok tf =>
    cases tf with
    | true => simp [run_video, h1]
    | false =>
      cases h2 : b.tempdir with
      | error e => simp [run_video, h1, h2]
      | ok u =>
        cases h3 : b.download ("https://www.youtube.com/watch?v=" ++ id) with
        | error e => simp [run_video, h1, h2, h3]
        | ok dl =>
          cases h4 : dl.output.status.success with
          | false => simp [run_video, h1, h2, h3, h4]
          | true =>
            cases h5 : b.extract with
            | error e => simp [run_video, h1, h2, h3, h4, h5]
            | ok m =>
              cases h6 : b.upload id with
              | error e => simp [run_video, h1, h2, h3, h4, h5, h6]
              | ok u2 =>
                cases h7 : b.archive id with
                | error e => simp [run_video, h1, h2, h3, h4, h5, h6, h7]
                | ok u3 => simp [run_video, h1, h2, h3, h4, h5, h6, h7]

/-- `run_video` never performs a queue insert. -/
theorem run_video_insert_free (b : Behavior) (events : Option Bool) (id : String) :
    (run_video b events id).calls.countP Call.isInsert = 0 := by
  cases h1 : b.is_archived id with
  | error e => simp [run_video, h1, Call.isInsert]
  | ok tf =>
    cases tf with
    | true => simp [run_video, h1, Call.isInsert]
    | false =>
      cases h2 : b.tempdir with
      | error e => simp [run_video, h1, h2, Call.isInsert]
      | ok u =>
        cases h3 : b.download ("https://www.youtube.com/watch?v=" ++ id) with
        | error e => simp [run_video, h1, h2, h3, Call.isInsert]
        | ok dl =>
          cases h4 : dl.output.status.success with
          | false => simp [run_video, h1, h2, h3, h4, Call.isInsert]
          | true =>
            cases h5 : b.extract with
            | error e => simp [run_video, h1, h2, h3, h4, h5, Call.isInsert]
            | ok m =>
              cases h6 : b.upload id with
              | error e => simp [run_video, h1, h2, h3, h4, h5, h6, Call.isInsert]
              | ok u2 =>
                cases h7 : b.archive id with
                | error e => simp [run_video, h1, h2, h3, h4, h5, h6, h7, Call.isInsert]
                | ok u3 => simp [run_video, h1, h2, h3, h4, h5, h6, h7, Call.isInsert]

/-- The events channel influences only the `delivered` component of
`run_video`: its `Result`, published events and collaborator calls agree
across any two channel configurations. -/
theorem run_video_channel_invariant (b : Behavior) (id : String)
    (ev1 ev2 : Option Bool) :
    (run_video b ev1 id).result = (run_video b ev2 id).result
    ∧ (run_video b ev1 id).emitted = (run_video b ev2 id).emitted
    ∧ (run_video b ev1 id).calls = (run_video b ev2 id).calls := by
  cases h1 : b.is_archived id with
  | error e => simp [run_video, h1]
  | ok tf =>
    cases tf with
    | true => simp [run_video, h1]
    | false =>
      cases h2 : b.tempdir with
      | error e => simp [run_video, h1, h2]
      | ok u =>
        cases h3 : b.download ("https://www.youtube.com/watch?v=" ++ id) with
        | error e => simp [run_video, h1, h2, h3]
        | ok dl =>
          cases h4 : dl.output.status.success with
          | false => simp [run_video, h1, h2, h3, h4]
          | true =>
            cases h5 : b.extract with
            | error e => simp [run_video, h1, h2, h3, h4, h5]
            | ok m =>
              cases h6 : b.upload id with
              | error e => simp [run_video, h1, h2, h3, h4, h5, h6]
              | ok u2 =>
                cases h7 : b.archive id with
                | error e => simp [run_video, h1, h2, h3, h4, h5, h6, h7]
                | ok u3 => simp [run_video, h1, h2, h3, h4, h5, h6, h7]

/-! ### Claim C9 -/

/-- Claim C9: for every 8-character digit string of the form YYYYMMDD,
`fix_upload_date` returns the same digits with hyphens inserted after
positions 4 and 6 ("YYYY-MM-DD"), and `YTMetadataExtractor::extract` stores
exactly this normalized form in the `upload_date` field of the produced
`Metadata` record. -/
theorem fix_upload_date_normalizes (y1 y2 y3 y4 m1 m2 d1 d2 : Char)
    (_hdigits : [y1, y2, y3, y4, m1, m2, d1, d2].all Char.isDigit = true) :
    fix_upload_date ⟨[y1, y2, y3, y4, m1, m2, d1, d2]⟩
        = ⟨[y1, y2, y3, y4, '-', m1, m2, '-', d1, d2]⟩
    ∧ (∀ (drive_base now : String) (files : List MetadataFileEntry)
        (info : InfoJson) (ts : MetadataTimestamps),
        (YTMetadataExtractor.extract drive_base files info ts now).upload_date
          = fix_upload_date info.upload_date) :=
  ⟨rfl, fun _ _ _ _ _ => rfl⟩

/-- Witness for C9 at the concrete date 19840102. -/
theorem fix_upload_date_normalizes_witness :
    fix_upload_date ⟨['1', '9', '8', '4', '0', '1', '0', '2']⟩
      = ⟨['1', '9', '8', '4', '-', '0', '1', '-', '0', '2']⟩ :=
  (fix_upload_date_normalizes '1' '9' '8' '4' '0' '1' '0' '2' (by decide)).1

/-! ### Claim C3 -/

/-- A successful primary yt-dlp run. -/
def okVideoOutput : ProcessOutput := ⟨⟨true, some 0⟩, "", ""⟩

/-- Counterexample to claim C3 as stated: with the primary fetch fixed to a
successful run, a secondary live-chat fetch that fails to start (spawn
error) turns the overall `Result` of `YTDL::download` into an error, so the
`Result` is not determined solely by the primary outcome: the
`tokio::try_join!` on src/util/ytdl.rs lines 162-166 propagates a spawn
failure of either branch. -/
theorem secondary_spawn_failure_changes_result :
    YTDL.download (.ok okVideoOutput) (.error "No such file or directory (os error 2)")
      = .error "Failed to spawn command: No such file or directory (os error 2)"
    ∧ YTDL.download (.ok okVideoOutput) (.ok okVideoOutput) = .ok ⟨okVideoOutput⟩
    ∧ YTDL.download (.ok okVideoOutput) (.error "No such file or directory (os error 2)")
        ≠ YTDL.download (.ok okVideoOutput) (.ok okVideoOutput) := by
  refine ⟨rfl, rfl, ?_⟩
  intro h
  rw [show YTDL.download (.ok okVideoOutput)
        (.error "No such file or directory (os error 2)")
      = .error "Failed to spawn command: No such file or directory (os error 2)" from rfl,
    show YTDL.download (.ok okVideoOutput) (.ok okVideoOutput)
      = .ok ⟨okVideoOutput⟩ from rfl] at h
  exact Except.noConfusion h

/-- Claim C3 (amended): once both yt-dlp processes start, the `Result` of
`YTDL::download` is determined solely by the primary outcome — the
secondary live-chat exit status never changes it (non-zero exit is warned
about only) — but a secondary fetch that fails to start makes the whole
download return an error. -/
theorem secondary_exit_never_changes_result :
    (∀ video : Except String ProcessOutput, ∀ lc lc' : ProcessOutput,
      YTDL.download video (.ok lc) = YTDL.download video (.ok lc'))
    ∧ (∀ v lc : ProcessOutput, v.status.success = true →
        YTDL.download (.ok v) (.ok lc) = .ok ⟨v⟩)
    ∧ (∀ v lc : ProcessOutput, v.status.success = false →
        YTDL.download (.ok v) (.ok lc)
          = .error ("yt-dlp exited with non-zero status: " ++ v.status.display))
    ∧ (∀ video : Except String ProcessOutput, ∀ e : String,
        ∃ e', YTDL.download video (.error e) = .error e') := by
  refine ⟨?_, ?_, ?_, ?_⟩
  · intro video lc lc'
    cases video with
    | error e => rfl
    | ok v => rfl
  · intro v lc h
    simp [YTDL.download, h]
  · intro v lc h
    simp [YTDL.download, h]
  · intro video e
    cases video with
    | error e0 => exact ⟨_, rfl⟩
    | ok v => exact ⟨_, rfl⟩

/-- Witness for the amended C3 at concrete outputs: a live chat exiting 1
versus one exiting 0 gives the same successful result. -/
theorem secondary_exit_never_changes_result_witness :
    YTDL.download (.ok okVideoOutput) (.ok ⟨⟨false, some 1⟩, "", "chat err"⟩)
      = .ok ⟨okVideoOutput⟩ :=
  secondary_exit_never_changes_result.2.1 okVideoOutput ⟨⟨false, some 1⟩, "", "chat err"⟩ rfl

/-! ### Claim C7 -/

/-- Claim C7: the dependency installers are convergent — `YTDL::new` and
`Rclone::new` invoke `install()` if and only if the `is_installed` version
probe fails; constructing an already-installed tool performs no install,
and any number of repeated constructions when already installed performs
zero installs. -/
theorem installers_convergent :
    (∀ (probe_ok : Bool) (ir : Except String Unit),
      ToolEffect.install ∈ (YTDL.new probe_ok ir).2 ↔ probe_ok = false)
    ∧ (∀ (probe_ok : Bool) (ir : Except String Unit),
      ToolEffect.install ∈ (Rclone.new probe_ok ir).2 ↔ probe_ok = false)
    ∧ (∀ ir : Except String Unit,
      (YTDL.new true ir).2 = [.probe] ∧ (Rclone.new true ir).2 = [.probe])
    ∧ (∀ (ir : Except String Unit) (n : Nat),
      ((List.replicate n ((YTDL.new true ir).2 ++ (Rclone.new true ir).2)).flatten).count
          ToolEffect.install = 0) := by
  refine ⟨?_, ?_, ?_, ?_⟩
  · intro p ir
    cases p with
    | true => simp [YTDL.new]
    | false =>
      cases ir with
      | error e => simp [YTDL.new]
      | ok u => simp [YTDL.new]
  · intro p ir
    cases p with
    | true => simp [Rclone.new]
    | false =>
      cases ir with
      | error e => simp [Rclone.new]
      | ok u => simp [Rclone.new]
  · intro ir
    exact ⟨rfl, rfl⟩
  · intro ir n
    induction n with
    | zero => rfl
    | succ k ih =>
      simp only [List.replicate_succ, List.flatten_cons, List.count_append, ih]
      rfl

/-- Witness for C7: with a succeeding probe no install happens; with a
failing probe the install effect is present. -/
theorem installers_convergent_witness :
    (ToolEffect.install ∈ (YTDL.new false (.ok ())).2)
    ∧ (ToolEffect.install ∈ (YTDL.new true (.ok ())).2 → False)
    ∧ (YTDL.new true (.ok ())).2 = [.probe] :=
  ⟨(installers_convergent.1 false (.ok ())).mpr rfl,
   fun h => by simpa using (installers_convergent.1 true (.ok ())).mp h,
   (installers_convergent.2.2.1 (.ok ())).1⟩

/-! ### Concrete behaviors used by witnesses -/

/-- A concrete metadata record for witness behaviors. -/
def exampleMetadata : Metadata :=
  { video_id := "dQw4w9WgXcQ"
    channel_name := "Rick Astley"
    channel_id := "UCuAXFkgsw1L7xaCfnd5JJOw"
    upload_date := "2008-11-25"
    title := "Never Gonna Give You Up"
    description := "official video"
    duration := 212
    width := 1280
    height := 720
    fps := 30
    format_id := "22"
    view_count := 2250000000
    like_count := 999999
    dislike_count := -1
    files := []
    drive_base := "gdrive:archive"
    archived_timestamp := "2024-01-01T00:00:00+00:00"
    timestamps := none }

/-- A behavior where every collaborator succeeds and the video is not yet
archived. -/
def okBehavior : Behavior :=
  { consume := .ok ⟨"taskkey", "dQw4w9WgXcQ"⟩
    insert := fun _ => .ok "newkey"
    is_archived := fun _ => .ok false
    tempdir := .ok ()
    download := fun _ => .ok ⟨⟨⟨true, some 0⟩, "", ""⟩⟩
    extract := .ok exampleMetadata
    upload := fun _ => .ok ()
    archive := fun _ => .ok () }

/-- A behavior whose catalog reports the video as already archived. -/
def archivedBehavior : Behavior :=
  { okBehavior with is_archived := fun _ => .ok true }

/-- A behavior whose queue is unreachable. -/
def failingBehavior : Behavior :=
  { okBehavior with consume := .error "queue down" }

/-- A behavior whose primary download exits with code 2, and whose queue
rejects inserts. -/
def code2Behavior : Behavior :=
  { okBehavior with
    consume := .ok ⟨"taskkey", "abc123"⟩
    insert := fun _ => .error "queue full"
    download := fun _ => .ok ⟨⟨⟨false, some 2⟩, "", "ERROR: boom"⟩⟩ }

/-- A behavior whose uploader fails. -/
def uploadFailBehavior : Behavior :=
  { okBehavior with upload := fun _ => .error "rclone exited with status 1" }

/-! ### Claim C1 -/

/-- Claim C1: for every task whose video identifier the catalog reports as
already archived, `run_one` returns `Ok` and the only collaborator calls
are the dequeue and the `is_archived` check — no download, extract, upload
or archive call happens — and, for every behavior whatsoever, the
`is_archived` check is the first collaborator call of `run_video`, hence
evaluated before any fetch is attempted. -/
theorem archived_task_short_circuit (b : Behavior) (ev : Option Bool)
    (sk : String) (task : TaskConsumeResponse)
    (hc : b.consume = .ok task) (ha : b.is_archived task.data = .ok true) :
    (run_one b ev sk).result = .ok ()
    ∧ (run_one b ev sk).calls = [Call.consume, Call.is_archived task.data]
    ∧ (∀ c ∈ (run_one b ev sk).calls,
        c.isDownload = false ∧ c ≠ Call.extract
        ∧ (∀ i, c ≠ Call.upload i) ∧ (∀ i, c ≠ Call.archive i))
    ∧ (∀ (b' : Behavior) (ev' : Option Bool) (id' : String),
        (run_video b' ev' id').calls.head? = some (Call.is_archived id')) := by
  have hrv : run_video b ev task.data
      = ⟨.ok (), [], [], [.is_archived task.data]⟩ := by
    simp [run_video, ha]
  refine ⟨?_, ?_, ?_, fun b' ev' id' => run_video_calls_head b' ev' id'⟩
  · simp [run_one, hc, hrv]
  · simp [run_one, hc, hrv]
  · intro c hmem
    simp [run_one, hc, hrv] at hmem
    rcases hmem with rfl | rfl <;> simp [Call.isDownload]

/-- Witness for C1 with a concrete already-archived task. -/
theorem archived_task_short_circuit_witness :
    (run_one archivedBehavior (some true) "").result = .ok ()
    ∧ (run_one archivedBehavior (some true) "").calls
        = [Call.consume, Call.is_archived "dQw4w9WgXcQ"] :=
  ⟨(archived_task_short_circuit archivedBehavior (some true) ""
      ⟨"taskkey", "dQw4w9WgXcQ"⟩ rfl rfl).1,
   (archived_task_short_circuit archivedBehavior (some true) ""
      ⟨"taskkey", "dQw4w9WgXcQ"⟩ rfl rfl).2.1⟩

/-! ### Claim C10 -/

/-- Claim C10: when the catalog reports the video already archived,
`run_one` returns success having published only the `Starting` event: no
`Idle` is published on this short-circuit path, so the last published
state remains `Starting`. -/
theorem archived_skip_last_event_starting (b : Behavior) (ev : Option Bool)
    (sk : String) (task : TaskConsumeResponse)
    (hc : b.consume = .ok task) (ha : b.is_archived task.data = .ok true) :
    (run_one b ev sk).result = .ok ()
    ∧ (run_one b ev sk).emitted = [ArchiverState.Starting]
    ∧ ArchiverState.Idle ∉ (run_one b ev sk).emitted
    ∧ (run_one b ev sk).emitted.getLast? = some ArchiverState.Starting := by
  have hrv : run_video b ev task.data
      = ⟨.ok (), [], [], [.is_archived task.data]⟩ := by
    simp [run_video, ha]
  refine ⟨?_, ?_, ?_, ?_⟩ <;> simp [run_one, hc, hrv]

/-- Witness for C10 with a concrete already-archived task. -/
theorem archived_skip_last_event_starting_witness :
    (run_one archivedBehavior (some true) "").result = .ok ()
    ∧ (run_one archivedBehavior (some true) "").emitted = [ArchiverState.Starting] :=
  ⟨(archived_skip_last_event_starting archivedBehavior (some true) ""
      ⟨"taskkey", "dQw4w9WgXcQ"⟩ rfl rfl).1,
   (archived_skip_last_event_starting archivedBehavior (some true) ""
      ⟨"taskkey", "dQw4w9WgXcQ"⟩ rfl rfl).2.1⟩

/-! ### Claim C6 -/

/-- Claim C6: on every exit path of `run_video` on which the working
directory was created — success, or failure at the download, extract,
upload, or register stage — the directory is also removed: a
`tempdirCreate` in the trace implies a `tempdirRemove`, creations and
removals are in bijection, and whenever the directory was created the
removal is the very last action. -/
theorem workdir_removed_on_every_exit (b : Behavior) (ev : Option Bool)
    (id : String) :
    (Call.tempdirCreate ∈ (run_video b ev id).calls →
      Call.tempdirRemove ∈ (run_video b ev id).calls)
    ∧ (run_video b ev id).calls.count Call.tempdirCreate
        = (run_video b ev id).calls.count Call.tempdirRemove
    ∧ (Call.tempdirCreate ∈ (run_video b ev id).calls →
        (run_video b ev id).calls.getLast? = some Call.tempdirRemove) := by
  cases h1 : b.is_archived id with
  | error e => refine ⟨?_, ?_, ?_⟩ <;> simp [run_video, h1]
  | ok tf =>
    cases tf with
    | true => refine ⟨?_, ?_, ?_⟩ <;> simp [run_video, h1]
    | false =>
      cases h2 : b.tempdir with
      | error e => refine ⟨?_, ?_, ?_⟩ <;> simp [run_video, h1, h2]
      | ok u =>
        cases h3 : b.download ("https://www.youtube.com/watch?v=" ++ id) with
        | error e =>
          refine ⟨?_, ?_, ?_⟩ <;> simp [run_video, h1, h2, h3, List.count_cons]
        | ok dl =>
          cases h4 : dl.output.status.success with
          | false =>
            refine ⟨?_, ?_, ?_⟩ <;>
              simp [run_video, h1, h2, h3, h4, List.count_cons]
          | true =>
            cases h5 : b.extract with
            | error e =>
              refine ⟨?_, ?_, ?_⟩ <;>
                simp [run_video, h1, h2, h3, h4, h5, List.count_cons]
            | ok m =>
              cases h6 : b.upload id with
              | error e =>
                refine ⟨?_, ?_, ?_⟩ <;>
                  simp [run_video, h1, h2, h3, h4, h5, h6, List.count_cons]
              | ok u2 =>
                cases h7 : b.archive id with
                | error e =>
                  refine ⟨?_, ?_, ?_⟩ <;>
                    simp [run_video, h1, h2, h3, h4, h5, h6, h7, List.count_cons]
                | ok u3 =>
                  refine ⟨?_, ?_, ?_⟩ <;>
                    simp [run_video, h1, h2, h3, h4, h5, h6, h7, List.count_cons]

/-- Witness for C6: with a failing uploader the directory is created and
still removed. -/
theorem workdir_removed_on_every_exit_witness :
    Call.tempdirCreate ∈ (run_video uploadFailBehavior (some true) "dQw4w9WgXcQ").calls
    ∧ Call.tempdirRemove ∈ (run_video uploadFailBehavior (some true) "dQw4w9WgXcQ").calls :=
  ⟨by decide,
   (workdir_removed_on_every_exit uploadFailBehavior (some true) "dQw4w9WgXcQ").1
     (by decide)⟩

/-! ### Claim C5 -/

/-- Claim C5: whenever `run_video` fails after a task was dequeued and the
requeue policy is enabled (`skip_requeue` non-empty), `run_one` performs
exactly one queue insert, of the original task payload, any failure of that
insert is ignored (the result is the same for every insert behavior), and
`run_one` returns the original error unchanged; when the failure is a
primary fetch that exited with code 2, that error is exactly the message
naming exit code 2 and the captured stderr. -/
theorem requeue_on_failure (b : Behavior) (ev : Option Bool) (sk : String)
    (task : TaskConsumeResponse) (e : String)
    (hc : b.consume = .ok task) (hsk : sk ≠ "")
    (hv : (run_video b ev task.data).result = .error e) :
    (run_one b ev sk).result = .error e
    ∧ (run_one b ev sk).calls
        = Call.consume :: (run_video b ev task.data).calls ++ [Call.insert task.data]
    ∧ (run_one b ev sk).calls.countP Call.isInsert = 1
    ∧ (∀ ins : String → Except String String,
        (run_one { b with insert := ins } ev sk).result = .error e)
    ∧ (∀ v : VideoDownloadResult,
        b.is_archived task.data = .ok false → b.tempdir = .ok () →
        b.download ("https://www.youtube.com/watch?v=" ++ task.data) = .ok v →
        v.output.status.success = false → v.output.status.code = some 2 →
        e = "Could not download video: downloader exited with code 2, stderr: "
            ++ v.output.stderr) := by
  have h1 : (run_one b ev sk).result = .error e := by
    simp [run_one, hc, hv, hsk]
  have h2 : (run_one b ev sk).calls
      = Call.consume :: (run_video b ev task.data).calls ++ [Call.insert task.data] := by
    simp [run_one, hc, hv, hsk]
  refine ⟨h1, h2, ?_, ?_, ?_⟩
  · rw [h2]
    simp [List.countP_cons, List.countP_append, Call.isInsert,
      run_video_insert_free b ev task.data]
  · intro ins
    show (run_one b ev sk).result = .error e
    exact h1
  · intro v ha ht hd hsucc hcode
    have hve : (run_video b ev task.data).result
        = .error ("Could not download video: downloader exited with code "
            ++ toString (v.output.status.code.getD (-1))
            ++ ", stderr: " ++ v.output.stderr) := by
      simp [run_video, ha, ht, hd, hsucc]
    rw [hve] at hv
    have he : e = "Could not download video: downloader exited with code "
        ++ toString (v.output.status.code.getD (-1))
        ++ ", stderr: " ++ v.output.stderr := by
      exact (Except.error.injEq _ _ ▸ congrArg id hv.symm : _)
    rw [he, hcode]
    rw [show ("Could not download video: downloader exited with code "
        ++ toString ((some (2 : Int)).getD (-1)) ++ ", stderr: ")
      = "Could not download video: downloader exited with code 2, stderr: " from rfl]

/-- Witness for C5: the behavior whose downloader exits with code 2 and
whose queue rejects the requeue insert. -/
theorem requeue_on_failure_witness :
    (run_one code2Behavior (some true) "enabled").result
      = .error "Could not download video: downloader exited with code 2, stderr: ERROR: boom"
    ∧ (run_one code2Behavior (some true) "enabled").calls.countP Call.isInsert = 1 :=
  ⟨(requeue_on_failure code2Behavior (some true) "enabled" ⟨"taskkey", "abc123"⟩
      "Could not download video: downloader exited with code 2, stderr: ERROR: boom"
      rfl (by decide) rfl).1,
   (requeue_on_failure code2Behavior (some true) "enabled" ⟨"taskkey", "abc123"⟩
      "Could not download video: downloader exited with code 2, stderr: ERROR: boom"
      rfl (by decide) rfl).2.2.1⟩

/-! ### Claim C8 -/

/-- Claim C8: event publication never affects pipeline results — for every
fixed collaborator behavior, `run_one` returns the same `Result`, publishes
the same events and makes the same collaborator calls whether the events
channel is absent, open, or closed; a send failure never becomes a pipeline
error (`send_event` merely delivers nothing there). -/
theorem events_channel_noninterference (b : Behavior) (sk : String)
    (ev1 ev2 : Option Bool) :
    ((run_one b ev1 sk).result = (run_one b ev2 sk).result
    ∧ (run_one b ev1 sk).emitted = (run_one b ev2 sk).emitted
    ∧ (run_one b ev1 sk).calls = (run_one b ev2 sk).calls)
    ∧ send_event none ArchiverState.Starting = []
    ∧ send_event (some false) ArchiverState.Starting = [] := by
  refine ⟨?_, rfl, rfl⟩
  cases hc : b.consume with
  | error e => simp [run_one, hc]
  | ok task =>
    obtain ⟨hr, he, hca⟩ := run_video_channel_invariant b task.data ev1 ev2
    cases hres : (run_video b ev1 task.data).result with
    | error e =>
      have hres2 : (run_video b ev2 task.data).result = .error e := by
        rw [← hr, hres]
      by_cases hsk : sk = ""
      · subst hsk
        simp [run_one, hc, hres, hres2, he, hca]
      · simp [run_one, hc, hres, hres2, he, hca, hsk]
    | ok u =>
      have hres2 : (run_video b ev2 task.data).result = .ok u := by
        rw [← hr, hres]
      simp [run_one, hc, hres, hres2, he, hca]

/-! ### Claim C4 -/

/-- Claim C4: for a fully successful run (task dequeued, not already
archived, all steps succeed) the published events are exactly
`Starting, Downloading, Uploading, Idle` in that order; for a failed run
that aborts before the `Downloading` step, the events of the surrounding
`run_forever` iteration are exactly `Starting, FailureBackoff`. -/
theorem state_event_order (ev : Option Bool) (sk : String) (d : Nat) :
    (∀ (b : Behavior) (task : TaskConsumeResponse) (v : VideoDownloadResult)
        (m : Metadata),
      b.consume = .ok task →
      b.is_archived task.data = .ok false → b.tempdir = .ok () →
      b.download ("https://www.youtube.com/watch?v=" ++ task.data) = .ok v →
      v.output.status.success = true → b.extract = .ok m →
      b.upload task.data = .ok () → b.archive task.data = .ok () →
      (run_one b ev sk).result = .ok ()
      ∧ (run_one b ev sk).emitted
          = [ArchiverState.Starting, ArchiverState.Downloading,
             ArchiverState.Uploading, ArchiverState.Idle]
      ∧ (run_forever_iteration b ev sk d).run.emitted
          = [ArchiverState.Starting, ArchiverState.Downloading,
             ArchiverState.Uploading, ArchiverState.Idle])
    ∧ (∀ (b : Behavior) (e : String),
      (run_one b ev sk).result = .error e →
      ArchiverState.Downloading ∉ (run_one b ev sk).emitted →
      (run_forever_iteration b ev sk d).run.emitted
        = [ArchiverState.Starting, ArchiverState.FailureBackoff]) := by
  constructor
  · intro b task v m hc ha ht hd hsucc hx hu har
    have hrv : run_video b ev task.data
        = ⟨.ok (), [.Downloading, .Uploading, .Idle],
            send_event ev .Downloading ++ send_event ev .Uploading
              ++ send_event ev .Idle,
            [.is_archived task.data, .tempdirCreate,
              .download ("https://www.youtube.com/watch?v=" ++ task.data),
              .extract, .upload task.data, .archive task.data,
              .tempdirRemove]⟩ := by
      simp [run_video, ha, ht, hd, hsucc, hx, hu, har]
    have h1 : (run_one b ev sk).result = .ok () := by simp [run_one, hc, hrv]
    have h2 : (run_one b ev sk).emitted
        = [ArchiverState.Starting, ArchiverState.Downloading,
           ArchiverState.Uploading, ArchiverState.Idle] := by
      simp [run_one, hc, hrv]
    exact ⟨h1, h2, by simp [run_forever_iteration, h1, h2]⟩
  · intro b e herr hnd
    have hone : (run_one b ev sk).emitted = [ArchiverState.Starting] := by
      cases hc : b.consume with
      | error e0 => simp [run_one, hc]
      | ok task =>
        cases h1 : b.is_archived task.data with
        | error e1 =>
          have hrv : run_video b ev task.data
              = ⟨.error e1, [], [], [.is_archived task.data]⟩ := by
            simp [run_video, h1]
          by_cases hsk : sk = "" <;> simp [run_one, hc, hrv, hsk]
        | ok tf =>
          cases tf with
          | true =>
            have hrv : run_video b ev task.data
                = ⟨.ok (), [], [], [.is_archived task.data]⟩ := by
              simp [run_video, h1]
            simp [run_one, hc, hrv] at herr
          | false =>
            cases h2 : b.tempdir with
            | error e2 =>
              have hrv : run_video b ev task.data
                  = ⟨.error ("Could not create temporary directory: " ++ e2),
                      [], [], [.is_archived task.data]⟩ := by
                simp [run_video, h1, h2]
              by_cases hsk : sk = "" <;> simp [run_one, hc, hrv, hsk]
            | ok u =>
              exfalso
              apply hnd
              have hdl : ArchiverState.Downloading
                  ∈ (run_video b ev task.data).emitted := by
                cases h3 : b.download ("https://www.youtube.com/watch?v=" ++ task.data) with
                | error e3 => simp [run_video, h1, h2, h3]
                | ok dl =>
                  cases h4 : dl.output.status.success with
                  | false => simp [run_video, h1, h2, h3, h4]
                  | true =>
                    cases h5 : b.extract with
                    | error e5 => simp [run_video, h1, h2, h3, h4, h5]
                    | ok m =>
                      cases h6 : b.upload task.data with
                      | error e6 => simp [run_video, h1, h2, h3, h4, h5, h6]
                      | ok u2 =>
                        cases h7 : b.archive task.data with
                        | error e7 => simp [run_video, h1, h2, h3, h4, h5, h6, h7]
                        | ok u3 => simp [run_video, h1, h2, h3, h4, h5, h6, h7]
              cases hres : (run_video b ev task.data).result with
              | error e9 =>
                by_cases hsk : sk = ""
                · subst hsk
                  simp [run_one, hc, hres]
                  exact hdl
                · simp [run_one, hc, hres, hsk]
                  exact hdl
              | ok u9 =>
                simp [run_one, hc, hres]
                exact hdl
    simp [run_forever_iteration, herr, hone]

/-- Witness for C4: the all-success behavior publishes the four events in
order, and a queue-down behavior's iteration publishes Starting then
FailureBackoff. -/
theorem state_event_order_witness :
    (run_one okBehavior (some true) "").emitted
      = [ArchiverState.Starting, ArchiverState.Downloading,
         ArchiverState.Uploading, ArchiverState.Idle]
    ∧ (run_forever_iteration failingBehavior (some true) "" 30).run.emitted
      = [ArchiverState.Starting, ArchiverState.FailureBackoff] :=
  ⟨((state_event_order (some true) "" 30).1 okBehavior ⟨"taskkey", "dQw4w9WgXcQ"⟩
      ⟨⟨⟨true, some 0⟩, "", ""⟩⟩ exampleMetadata rfl rfl rfl rfl rfl rfl rfl rfl).2.1,
   (state_event_order (some true) "" 30).2 failingBehavior
      "Could not get next task from queue: queue down" rfl (by decide)⟩

/-! ### Claim C2 -/

/-- The delay sequence starts with the starting delay. -/
theorem backoffDelays_zero (d : Nat) (outs : List Bool) :
    (backoffDelays d outs)[0]? = some d := by
  cases outs <;> simp [backoffDelays]

/-- Adjacent delays are related by `iter_next_delay` at that iteration's
`run_one` outcome. -/
theorem backoffDelays_succ (outs : List Bool) :
    ∀ (d i : Nat) (si : Bool) (di di' : Nat),
      outs[i]? = some si →
      (backoffDelays d outs)[i]? = some di →
      (backoffDelays d outs)[i + 1]? = some di' →
      di' = iter_next_delay di si := by
  induction outs with
  | nil =>
    intro d i si di di' hs _ _
    simp at hs
  | cons s rest ih =>
    intro d i si di di' hs hd hd'
    cases i with
    | zero =>
      simp at hs
      rw [backoffDelays] at hd hd'
      simp at hd
      rw [List.getElem?_cons_succ, backoffDelays_zero] at hd'
      simp at hd'
      rw [← hd, ← hd', ← hs]
    | succ j =>
      rw [backoffDelays] at hd hd'
      rw [List.getElem?_cons_succ] at hs hd hd'
      exact ih (iter_next_delay d s) j si di di' hs hd hd'

/-- Starting at or below the ceiling, every delay in the sequence stays at
or below the ceiling. -/
theorem backoffDelays_le_ceiling (outs : List Bool) :
    ∀ d : Nat, d ≤ backoff_ceiling →
      ∀ x ∈ backoffDelays d outs, x ≤ backoff_ceiling := by
  induction outs with
  | nil =>
    intro d hd x hx
    rw [backoffDelays] at hx
    simp at hx
    omega
  | cons s rest ih =>
    intro d hd x hx
    rw [backoffDelays] at hx
    rcases List.mem_cons.mp hx with rfl | hx'
    · exact hd
    · refine ih (iter_next_delay d s) ?_ x hx'
      cases s with
      | false =>
        simp only [iter_next_delay, Bool.false_eq_true, if_false]
        exact Nat.min_le_right _ _
      | true =>
        simp only [iter_next_delay, if_true]
        decide

/-- Claim C2: in `run_forever` the backoff delay starts at 30 seconds;
after every failed `run_one` the iteration sleeps the current delay and
carries forward the doubled delay capped at the ceiling (5 minutes); along
any outcome sequence the delay never exceeds the ceiling and is
non-decreasing across consecutive failures; after any successful `run_one`
it is reset to 30 seconds. -/
theorem run_forever_backoff_policy :
    run_forever_initial_delay = 30
    ∧ backoff_ceiling = 5 * 60
    ∧ (∀ (b : Behavior) (ev : Option Bool) (sk e : String) (d : Nat),
        (run_one b ev sk).result = .error e →
        (run_forever_iteration b ev sk d).sleeps = [d]
        ∧ (run_forever_iteration b ev sk d).nextDelay = min (d * 2) backoff_ceiling)
    ∧ (∀ (b : Behavior) (ev : Option Bool) (sk : String) (d : Nat),
        (run_one b ev sk).result = .ok () →
        (run_forever_iteration b ev sk d).sleeps = []
        ∧ (run_forever_iteration b ev sk d).nextDelay = 30)
    ∧ (∀ (outs : List Bool) (x : Nat),
        x ∈ backoffDelays run_forever_initial_delay outs → x ≤ backoff_ceiling)
    ∧ (∀ (outs : List Bool) (i di di' : Nat),
        outs[i]? = some false →
        (backoffDelays run_forever_initial_delay outs)[i]? = some di →
        (backoffDelays run_forever_initial_delay outs)[i + 1]? = some di' →
        di ≤ di' ∧ di' = min (di * 2) backoff_ceiling)
    ∧ (∀ (outs : List Bool) (i di di' : Nat),
        outs[i]? = some true →
        (backoffDelays run_forever_initial_delay outs)[i]? = some di →
        (backoffDelays run_forever_initial_delay outs)[i + 1]? = some di' →
        di' = 30) := by
  refine ⟨rfl, rfl, ?_, ?_, ?_, ?_, ?_⟩
  · intro b ev sk e d h
    constructor <;>
      simp [run_forever_iteration, h, iter_next_delay]
  · intro b ev sk d h
    constructor <;>
      simp [run_forever_iteration, h, iter_next_delay, run_forever_initial_delay]
  · intro outs x hx
    exact backoffDelays_le_ceiling outs run_forever_initial_delay (by decide) x hx
  · intro outs i di di' hs hd hd'
    have hstep := backoffDelays_succ outs run_forever_initial_delay i false di di' hs hd hd'
    have hmem : di ∈ backoffDelays run_forever_initial_delay outs :=
      List.getElem?_mem hd
    have hle : di ≤ backoff_ceiling :=
      backoffDelays_le_ceiling outs run_forever_initial_delay (by decide) di hmem
    have hmin : iter_next_delay di false = min (di * 2) backoff_ceiling := by
      simp [iter_next_delay]
    refine ⟨?_, by rw [hstep, hmin]⟩
    rw [hstep, hmin]
    have h300 : backoff_ceiling = 300 := rfl
    omega
  · intro outs i di di' hs hd hd'
    have hstep := backoffDelays_succ outs run_forever_initial_delay i true di di' hs hd hd'
    rw [hstep]
    rfl

/-- Witness for C2: a failing iteration at delay 30 sleeps 30 seconds and
doubles the delay; a successful iteration at the ceiling resets to 30. -/
theorem run_forever_backoff_policy_witness :
    (run_forever_iteration failingBehavior (some true) "" 30).sleeps = [30]
    ∧ (run_forever_iteration failingBehavior (some true) "" 30).nextDelay
        = min (30 * 2) backoff_ceiling
    ∧ (run_forever_iteration okBehavior (some true) "" 300).sleeps = []
    ∧ (run_forever_iteration okBehavior (some true) "" 300).nextDelay = 30 :=
  ⟨(run_forever_backoff_policy.2.2.1 failingBehavior (some true) ""
      "Could not get next task from queue: queue down" 30 rfl).1,
   (run_forever_backoff_policy.2.2.1 failingBehavior (some true) ""
      "Could not get next task from queue: queue down" 30 rfl).2,
   (run_forever_backoff_policy.2.2.2.1 okBehavior (some true) "" 300 rfl).1,
   (run_forever_backoff_policy.2.2.2.1 okBehavior (some true) "" 300 rfl).2⟩

end ArchiveBot
